import Mathlib

/-! Verification development for the klistra markdown publisher
(src/main.rs).  The program renders a markdown file to HTML, wraps it in a
fixed page template, and either writes the page next to the source file
(never overwriting an existing file) or uploads it to an S3-compatible
bucket under a freshly generated UUID-based key.  The definitions below are
a shallow embedding of the source: pure string computations are translated
directly, the standard-library path functions used by the source
(file_stem, with_extension) are modelled on strings, and the effectful
parts of main are modelled as a function from an explicit world (config
file contents, source file contents, local file system, drawn UUID, date)
to a trace of effects plus an outcome. -/

namespace Klistra

/-! Part 1: string helpers modelling the Rust standard library functions
used by src/main.rs. -/

/-- Rust str.trim_end_matches specialised to the slash pattern used at
src/main.rs line 269: every trailing occurrence of the character is
removed. -/
def trim_end_matches_slash (s : String) : String :=
  ⟨(s.data.reverse.dropWhile (fun c => c == '/')).reverse⟩

/-- The object key built at src/main.rs lines 267-271:
prefix with trailing slashes stripped, then /p/, the generated folder
name, and /index.html. -/
def object_key (pfx uid : String) : String :=
  trim_end_matches_slash pfx ++ "/p/" ++ uid ++ "/index.html"

/-- The public URL reported at src/main.rs line 282. -/
def public_url (dom uid : String) : String :=
  dom ++ "/p/" ++ uid

/-- The fixed object-storage provider host appearing in the endpoint URL at
src/main.rs line 247. -/
def providerHost : String := "backblazeb2.com"

/-- The endpoint URL built at src/main.rs line 247. -/
def endpoint (region : String) : String :=
  "https://s3." ++ region ++ ".backblazeb2.com"

/-- Splits a character list at every occurrence of the separator.  Used to
model the component structure of Rust paths (the source file path is a
UTF-8 string, so characters suffice). -/
def splitOnChar (sep : Char) : List Char → List (List Char)
  | [] => [[]]
  | c :: rest =>
    let r := splitOnChar sep rest
    if c = sep then [] :: r
    else match r with
      | [] => [[c]]
      | g :: gs => (c :: g) :: gs

/-- The meaningful components of a Unix path: empty components (repeated or
trailing separators) and lone-dot components are dropped, mirroring the
normalisation done by the Rust std path component iterator. -/
def pathComponents (p : String) : List (List Char) :=
  (splitOnChar '/' p.data).filter (fun g => !(g == []) && !(g == ['.']))

/-- Models Rust Path::file_name: the final path component, unless the path
has no components or ends in a parent-directory component. -/
def file_name (p : String) : Option String :=
  match (pathComponents p).getLast? with
  | none => none
  | some g => if g == ['.', '.'] then none else some ⟨g⟩

/-- Models the Rust std helper that splits a file name at its last dot: the
extension is everything after the last dot provided that dot is not the
leading character; the name dot-dot and names without such a dot have no
extension. -/
def split_file_at_dot (file : String) : String × Option String :=
  if file = ".." then (file, none)
  else
    match file.data.reverse.dropWhile (fun c => c != '.') with
    | [] => (file, none)
    | [_] => (file, none)
    | _ :: c :: cs =>
      (⟨(c :: cs).reverse⟩,
       some ⟨(file.data.reverse.takeWhile (fun c => c != '.')).reverse⟩)

/-- Models Rust Path::file_stem as the std library computes it: the part of
the file name before its extension. -/
def file_stem (p : String) : Option String :=
  (file_name p).map (fun n => (split_file_at_dot n).1)

/-- The page title computed at src/main.rs lines 93-96: the file stem of
the source path, or the literal Document when the stem is unavailable (the
path is a Rust String, so the UTF-8 check of to_str never fails). -/
def title (file : String) : String :=
  (file_stem file).getD "Document"

/-- Splits a path at its last separator: first component is everything up
to and including the last slash (empty when there is none), second is the
rest. -/
def splitLastSlash (p : String) : String × String :=
  let r := p.data.reverse
  (⟨(r.dropWhile (fun c => c != '/')).reverse⟩, ⟨(r.takeWhile (fun c => c != '/')).reverse⟩)

/-- Models Rust Path::with_extension as used at src/main.rs line 230, for
paths whose final component directly follows the last separator (the only
paths that can reach that line, the source file having been opened and
read).  The file name keeps its stem and receives the new extension; when
the path has no proper file name the path is returned unchanged, and when
the new extension is empty no dot is appended, both as in the std
library. -/
def with_extension (p ext : String) : String :=
  if (splitLastSlash p).2 = "" ∨ (splitLastSlash p).2 = "." ∨ (splitLastSlash p).2 = ".."
  then p
  else if ext = ""
  then (splitLastSlash p).1 ++ (split_file_at_dot (splitLastSlash p).2).1
  else (splitLastSlash p).1 ++ (split_file_at_dot (splitLastSlash p).2).1 ++ "." ++ ext

/-! Part 2: the markup renderer configuration (src/main.rs lines 84-89).
The renderer itself is the external pulldown-cmark crate; only its
configuration lives in this repository. -/

/-- The extension flags of the markup renderer options bit-set. -/
inductive MarkdownOption where
  | ENABLE_TABLES
  | ENABLE_FOOTNOTES
  | ENABLE_STRIKETHROUGH
  | ENABLE_TASKLISTS
deriving DecidableEq, BEq

/-- The renderer options value, modelled as the list of enabled
extension flags. -/
abbrev MarkupOptions := List MarkdownOption

/-- Options::empty() at src/main.rs line 84: no extension enabled. -/
def MarkupOptions.empty : MarkupOptions := []

/-- options.insert at src/main.rs line 85. -/
def MarkupOptions.insert (o : MarkupOptions) (x : MarkdownOption) : MarkupOptions :=
  o ++ [x]

/-- The options the program passes to the renderer (src/main.rs lines
84-85): the empty option set with exactly the table extension inserted. -/
def options : MarkupOptions :=
  MarkupOptions.empty.insert MarkdownOption.ENABLE_TABLES

/-- Modelled from the spec: the markup renderer is the external
pulldown-cmark crate, whose code is not part of this repository; only the
option value passed to it (the def options above) is.  Per the spec the
renderer is total over all string inputs and degrades unrecognised
constructs to literal text: here blocks separated by blank lines are
wrapped in paragraph tags with their text preserved, and a block whose
every line begins with a pipe is rendered as table markup exactly when the
table extension flag is enabled, remaining literal paragraph text
otherwise. -/
def renderBlock (opts : MarkupOptions) (b : List (List Char)) : List Char :=
  let text := (List.intersperse ['\n'] b).flatten
  if b.all (fun l => l.head? == some '|') && opts.contains MarkdownOption.ENABLE_TABLES then
    "<table>".data ++ text ++ "</table>".data
  else
    "<p>".data ++ text ++ "</p>".data

/-- Groups the lines of a document into blocks separated by blank lines,
dropping the blank lines. -/
def splitBlocks : List (List Char) → List (List (List Char))
  | [] => []
  | [l] => if l.isEmpty then [] else [[l]]
  | l :: l2 :: rest =>
    let r := splitBlocks (l2 :: rest)
    if l.isEmpty then r
    else if l2.isEmpty then [l] :: r
    else match r with
      | [] => [[l]]
      | b :: bs => (l :: b) :: bs

/-- Modelled from the spec: the markup-to-HTML conversion run at
src/main.rs lines 87-89 through the external pulldown-cmark crate.  A total
function of the option set and the input text. -/
def render (opts : MarkupOptions) (markdown : String) : String :=
  ⟨((splitBlocks (splitOnChar '\n' markdown.data)).map (renderBlock opts)).flatten⟩

/-! Part 3: the page template (src/main.rs lines 98-226).  The format
string is reproduced verbatim, split at its three placeholders (title,
date, rendered fragment). -/

/-- The template text before the title placeholder. -/
def tplA : String := "<!DOCTYPE html>
<html lang=\"en\">
<head>
    <meta charset=\"UTF-8\">
    <meta name=\"viewport\" content=\"width=device-width, initial-scale=1.0\">
    <title>"

/-- The template text between the title placeholder and the date
placeholder, holding the embedded style sheet. -/
def tplB : String := "</title>
    <style>
        :root \x7b
            --background: #121212;
            --text: rgba(255, 255, 255, 0.87);
            --text-secondary: rgba(255, 255, 255, 0.6);
            --max-width: 800px;
            --spacing: 2rem;
        \x7d

        * \x7b
            margin: 0;
            padding: 0;
            box-sizing: border-box;
        \x7d

        body \x7b
            font-family: -apple-system, BlinkMacSystemFont, \"Segoe UI\", Roboto, Oxygen-Sans, Ubuntu, Cantarell, \"Helvetica Neue\", sans-serif;
            background: var(--background);
            color: var(--text);
            line-height: 1.6;
            padding: var(--spacing);
        \x7d

        .container \x7b
            max-width: var(--max-width);
            margin: 0 auto;
            padding: var(--spacing);
        \x7d

        .date \x7b
            color: var(--text-secondary);
            margin-bottom: 1rem;
            font-size: 1rem;
        \x7d

        h1 \x7b
            font-size: 2.5rem;
            font-weight: 600;
            margin-bottom: 0.5rem;
            line-height: 1.2;
        \x7d

        h2 \x7b
            font-size: 1.75rem;
            color: var(--text);
            margin: 2rem 0 1rem;
        \x7d

        p \x7b
            margin-bottom: 1.5rem;
            font-size: 1.1rem;
        \x7d

        a \x7b
            color: #3B82F6;
            text-decoration: none;
        \x7d

        a:hover \x7b
            text-decoration: underline;
        \x7d

        code \x7b
            font-family: \"SF Mono\", \"Segoe UI Mono\", \"Roboto Mono\", Menlo, Courier, monospace;
            background: rgba(255, 255, 255, 0.1);
            padding: 0.2em 0.4em;
            border-radius: 3px;
            font-size: 0.9em;
        \x7d

        pre \x7b
            background: rgba(255, 255, 255, 0.1);
            padding: 1rem;
            border-radius: 4px;
            overflow-x: auto;
            margin: 1.5rem 0;
        \x7d

        pre code \x7b
            background: none;
            padding: 0;
        \x7d

        img \x7b
            max-width: 100%;
            height: auto;
            border-radius: 8px;
            margin: 1.5rem 0;
        \x7d

        .subtitle \x7b
            color: var(--text-secondary);
            font-size: 1.25rem;
            margin-bottom: 2rem;
        \x7d

        table \x7b
            width: 100%;
            border-collapse: collapse;
            margin-bottom: 1.5rem;
        \x7d

        th, td \x7b
            border: 1px solid rgba(255, 255, 255, 0.2);
            padding: 0.75rem;
            text-align: left;
        \x7d

        thead \x7b
            background-color: rgba(255, 255, 255, 0.1);
        \x7d
    </style>
</head>
<body>
    <div class=\"container\">
        <div class=\"date\">"

/-- The template text between the date placeholder and the fragment
placeholder. -/
def tplC : String := "</div>
        "

/-- The template text after the fragment placeholder. -/
def tplD : String := "
    </div>
</body>
</html>"

/-- The full document assembled by the format! call at src/main.rs lines
98-226: title, current date and rendered fragment spliced verbatim into
the template. -/
def full_html (t d frag : String) : String :=
  tplA ++ t ++ tplB ++ d ++ tplC ++ frag ++ tplD

/-! Part 4: configuration (src/main.rs lines 14-27 and 61-80). -/

/-- The s3 section of the configuration file, after deserialization
(src/main.rs lines 14-22).  The field prefix_str embeds the field named
prefix in the source (that word is reserved in Lean). -/
structure S3Config where
  domain : String
  bucket : String
  region : String
  prefix_str : String
  access_key_id : String
  secret_access_key : String
deriving DecidableEq

/-- The raw s3 table of the configuration file before deserialization:
each field either present with a string value or absent. -/
structure RawS3Config where
  domain : Option String
  bucket : Option String
  region : Option String
  prefix_str : Option String
  access_key_id : Option String
  secret_access_key : Option String
deriving DecidableEq

/-- Models the derived serde Deserialize implementation for S3Config
(src/main.rs lines 14-22) as invoked through try_deserialize at line 80:
every field is required, and the first missing field (in declaration
order) is reported as an error. -/
def parseS3Config (r : RawS3Config) : Except String S3Config :=
  match r.domain with
  | none => .error "missing field domain"
  | some d =>
  match r.bucket with
  | none => .error "missing field bucket"
  | some b =>
  match r.region with
  | none => .error "missing field region"
  | some rg =>
  match r.prefix_str with
  | none => .error "missing field prefix"
  | some p =>
  match r.access_key_id with
  | none => .error "missing field access_key_id"
  | some a =>
  match r.secret_access_key with
  | none => .error "missing field secret_access_key"
  | some s => .ok ⟨d, b, rg, p, a, s⟩

/-! Part 5: the effectful pipeline of main (src/main.rs lines 57-287),
modelled as a pure function of an explicit world. -/

/-- The one S3 request the program can issue, with the client settings
that govern it (src/main.rs lines 247-280). -/
structure PutObjectRequest where
  endpoint_url : String
  force_path_style : Bool
  access_key_id : String
  secret_access_key : String
  provider_name : String
  bucket : String
  key : String
  body : String
  content_type : String
deriving DecidableEq

/-- The PUT request assembled at src/main.rs lines 247-280 from the
configuration, the drawn folder name and the rendered document. -/
def mkPutRequest (s3 : S3Config) (folder_name : String) (content : String) :
    PutObjectRequest :=
  { endpoint_url := endpoint s3.region
    force_path_style := true
    access_key_id := s3.access_key_id
    secret_access_key := s3.secret_access_key
    provider_name := "backblaze-credentials"
    bucket := s3.bucket
    key := object_key s3.prefix_str folder_name
    body := content
    content_type := "text/html" }

/-- The observable effects of one invocation: reading the source file,
writing a local file, issuing the S3 PUT. -/
inductive Effect where
  | readSource (path : String)
  | writeFile (path : String) (content : String)
  | putObject (req : PutObjectRequest)
deriving DecidableEq

/-- The error kinds with which main can abort (src/main.rs lines 61-82),
in the order the corresponding checks run. -/
inductive MainError where
  | configPathUndetermined
  | configNotFound
  | configInvalid (msg : String)
  | sourceUnreadable
deriving DecidableEq

/-- The environment of one invocation: whether a configuration path could
be determined (home directory known or path given on the command line),
whether the configuration file exists, its parsed raw table (none when the
file is not well-formed TOML), the source file content (none when
unreadable), the existing local file system, the UUID v4 text drawn at
src/main.rs line 244, and the formatted current date. -/
structure World where
  config_path_found : Bool
  config_file_exists : Bool
  raw_config : Option RawS3Config
  source : Option String
  fs : String → Option String
  uuid : String
  date : String

/-- The whole of main (src/main.rs lines 57-287) over a given world, a
source file path and the file_output flag, returning the trace of effects
performed and the outcome (an error, or the message printed on success).
Each question-mark early return of the source becomes an error case, left
in source order. -/
def runMain (w : World) (file : String) (file_output : Bool) :
    List Effect × Except MainError String :=
  if w.config_path_found = false then ([], .error .configPathUndetermined)
  else if w.config_file_exists = false then ([], .error .configNotFound)
  else
    match w.raw_config with
    | none => ([], .error (.configInvalid "configuration file malformed"))
    | some raw =>
      match parseS3Config raw with
      | .error m => ([], .error (.configInvalid m))
      | .ok s3 =>
        match w.source with
        | none => ([Effect.readSource file], .error .sourceUnreadable)
        | some md =>
          let html_output := render options md
          let full := full_html (title file) w.date html_output
          if file_output then
            let output_path := with_extension file "html"
            match w.fs output_path with
            | some _ =>
              ([Effect.readSource file],
               .ok ("Local file \x27" ++ output_path ++ "\x27 already exists. Not overwriting."))
            | none =>
              ([Effect.readSource file, Effect.writeFile output_path full],
               .ok ("Local HTML file created: " ++ output_path))
          else
            ([Effect.readSource file,
              Effect.putObject (mkPutRequest s3 w.uuid full)],
             .ok ("File uploaded successfully: " ++ public_url s3.domain w.uuid))

/-- Replays a trace of effects against a file system: only writeFile
changes it. -/
def applyEffects (fs : String → Option String) : List Effect → (String → Option String)
  | [] => fs
  | Effect.writeFile p c :: es =>
    applyEffects (fun q => if q = p then some c else fs q) es
  | _ :: es => applyEffects fs es

/-- A concrete configuration table for the closed instance theorems. -/
def rawExample : RawS3Config :=
  ⟨some "https://example.com", some "b", some "r", some "docs/", some "ak", some "sk"⟩

/-- The parsed form of rawExample. -/
def s3Example : S3Config :=
  ⟨"https://example.com", "b", "r", "docs/", "ak", "sk"⟩

/-- A world with an empty local file system: exercises the remote branch
and the create branch of local output. -/
def wEmpty : World :=
  { config_path_found := true
    config_file_exists := true
    raw_config := some rawExample
    source := some "hello"
    fs := fun _ => none
    uuid := "u-1"
    date := "March 04, 2025" }

/-- A world in which doc.html already exists: exercises the no-overwrite
branch. -/
def wExisting : World :=
  { wEmpty with fs := fun q => if q = "doc.html" then some "old content" else none }

/-- A configuration table whose bucket field is missing. -/
def rawNoBucket : RawS3Config :=
  ⟨some "https://example.com", none, some "r", some "docs/", some "ak", some "sk"⟩

/-- A world whose configuration table is missing its bucket field. -/
def wNoBucket : World := { wEmpty with raw_config := some rawNoBucket }

/-! Shared lemmas about the string and path model. -/

theorem str_data_append (s t : String) : (s ++ t).data = s.data ++ t.data := by
  cases s; cases t; rfl

theorem str_ext (s t : String) (h : s.data = t.data) : s = t := by
  cases s; cases t; exact congrArg String.mk h

theorem str_append_assoc (a b c : String) : a ++ b ++ c = a ++ (b ++ c) := by
  apply str_ext
  rw [str_data_append, str_data_append, str_data_append, str_data_append, List.append_assoc]

theorem str_append_right_inj (a u v : String) (h : a ++ u = a ++ v) : u = v := by
  have hd := congrArg String.data h
  rw [str_data_append, str_data_append] at hd
  exact str_ext _ _ (List.append_cancel_left hd)

theorem str_append_mid_inj (a c u v : String) (h : a ++ u ++ c = a ++ v ++ c) : u = v := by
  have hd := congrArg String.data h
  rw [str_data_append, str_data_append, str_data_append, str_data_append] at hd
  exact str_ext _ _ (List.append_cancel_left (List.append_cancel_right hd))

theorem splitLastSlash_concat (p : String) :
    (splitLastSlash p).1 ++ (splitLastSlash p).2 = p := by
  cases p with
  | mk data =>
    show String.mk _ ++ String.mk _ = _
    have h1 : (String.mk ((data.reverse.dropWhile (fun c => c != '/')).reverse)) ++
        (String.mk ((data.reverse.takeWhile (fun c => c != '/')).reverse)) =
        String.mk (((data.reverse.takeWhile (fun c => c != '/')) ++
          (data.reverse.dropWhile (fun c => c != '/'))).reverse) := by
      show String.mk _ = _
      rw [List.reverse_append]
    rw [h1, List.takeWhile_append_dropWhile, List.reverse_reverse]

theorem str_ne_empty_data (s : String) (h : s ≠ "") : s.data ≠ [] := by
  intro hd
  exact h (str_ext _ _ (by rw [hd]))

/-- Appending a dot-extension whose text holds no dot puts the last dot of
the new name right after the old text: the stem of the new name is the old
text and its extension is the appended one. -/
theorem split_append_html (s : String) (hs : s ≠ "") :
    split_file_at_dot (s ++ ".html") = (s, some "html") := by
  have hdata : (s ++ ".html").data = s.data ++ ['.', 'h', 't', 'm', 'l'] := by
    cases s; rfl
  have hne : (s ++ ".html") ≠ ".." := by
    intro h
    have hlen := congrArg (fun x : String => x.data.length) h
    simp only [hdata, List.length_append] at hlen
    simp at hlen
  have hrev : (s ++ ".html").data.reverse = 'l' :: 'm' :: 't' :: 'h' :: '.' :: s.data.reverse := by
    rw [hdata, List.reverse_append]
    rfl
  have hdrop : (s ++ ".html").data.reverse.dropWhile (fun c => c != '.') =
      '.' :: s.data.reverse := by
    rw [hrev]
    simp [List.dropWhile]
  have htake : (s ++ ".html").data.reverse.takeWhile (fun c => c != '.') =
      ['l', 'm', 't', 'h'] := by
    rw [hrev]
    simp [List.takeWhile]
  unfold split_file_at_dot
  rw [if_neg hne, hdrop, htake]
  cases hsd : s.data.reverse with
  | nil =>
    exact absurd (by simpa using congrArg List.reverse hsd) (str_ne_empty_data s hs)
  | cons c cs =>
    show (String.mk (c :: cs).reverse, some (String.mk ['h', 't', 'm', 'l'])) = _
    rw [← hsd, List.reverse_reverse]

theorem split_fst_of_ext_none (n : String) (h2 : (split_file_at_dot n).2 = none) :
    (split_file_at_dot n).1 = n := by
  by_cases hn : n = ".."
  · simp [split_file_at_dot, hn]
  · unfold split_file_at_dot at h2 ⊢
    rw [if_neg hn] at h2 ⊢
    rcases hd : n.data.reverse.dropWhile (fun c => c != '.') with _ | ⟨c, _ | ⟨c2, cs⟩⟩
    · rfl
    · rfl
    · rw [hd] at h2
      simp at h2

theorem split_fst_ne_empty (n : String) (hn : n ≠ "") :
    (split_file_at_dot n).1 ≠ "" := by
  by_cases h2 : n = ".."
  · simp [split_file_at_dot, h2]
  · unfold split_file_at_dot
    rw [if_neg h2]
    rcases hd : n.data.reverse.dropWhile (fun c => c != '.') with _ | ⟨c, _ | ⟨c2, cs⟩⟩
    · exact hn
    · exact hn
    · show String.mk (c2 :: cs).reverse ≠ ""
      intro he
      have hd2 := congrArg String.data he
      simp at hd2

/-- Serde refuses a raw s3 table with any missing field. -/
theorem parse_error_of_missing (r : RawS3Config)
    (h : r.domain = none ∨ r.bucket = none ∨ r.region = none ∨ r.prefix_str = none ∨
         r.access_key_id = none ∨ r.secret_access_key = none) :
    ∃ m : String, parseS3Config r = Except.error m := by
  obtain ⟨d, b, rg, p, a, s⟩ := r
  cases d with
  | none => exact ⟨_, rfl⟩
  | some d =>
    cases b with
    | none => exact ⟨_, rfl⟩
    | some b =>
      cases rg with
      | none => exact ⟨_, rfl⟩
      | some rg =>
        cases p with
        | none => exact ⟨_, rfl⟩
        | some p =>
          cases a with
          | none => exact ⟨_, rfl⟩
          | some a =>
            cases s with
            | none => exact ⟨_, rfl⟩
            | some s => simp at h

/-! The claims. -/

/-- Claim C1: for every configuration with a given prefix, domain and
generated identifier, the object key is the prefix with its trailing
slashes stripped, then /p/, the identifier and /index.html, and the
reported public URL is the domain, /p/ and the identifier with no trailing
index.html; in particular with prefix docs/ and domain
https://example.com the key is docs/p/U/index.html and the URL is
https://example.com/p/U. -/
theorem C1_key_and_url_shape (pfx dom uid : String) :
    object_key pfx uid = trim_end_matches_slash pfx ++ "/p/" ++ uid ++ "/index.html" ∧
    public_url dom uid = dom ++ "/p/" ++ uid ∧
    object_key "docs/" uid = "docs/p/" ++ uid ++ "/index.html" ∧
    public_url "https://example.com" uid = "https://example.com/p/" ++ uid := by
  refine ⟨rfl, rfl, ?_, rfl⟩
  unfold object_key
  congr 1

/-- Claim C3: for a fixed configuration, key construction and URL
construction are injective in the generated identifier, so two publishes
whose drawn identifiers differ produce distinct object keys and distinct
public URLs. -/
theorem C3_distinct_ids_distinct_keys (pfx dom u1 u2 : String) (h : u1 ≠ u2) :
    object_key pfx u1 ≠ object_key pfx u2 ∧ public_url dom u1 ≠ public_url dom u2 := by
  constructor
  · intro he
    exact h (str_append_mid_inj (trim_end_matches_slash pfx ++ "/p/") "/index.html" u1 u2 he)
  · intro he
    exact h (str_append_right_inj (dom ++ "/p/") u1 u2 he)

theorem C3_distinct_ids_distinct_keys_witness :
    ("a" : String) ≠ "b" ∧
    object_key "docs/" "a" ≠ object_key "docs/" "b" ∧
    public_url "https://example.com" "a" ≠ public_url "https://example.com" "b" := by
  have h := C3_distinct_ids_distinct_keys "docs/" "https://example.com" "a" "b" (by decide)
  exact ⟨by decide, h.1, h.2⟩

/-- Claim C5: for every source file path with a determinable base name the
string inserted into the title element of the templated document is the
base name without its extension, and when the base name cannot be
determined the inserted title is the literal Document; the template
splices the title verbatim between its title tags. -/
theorem C5_title_from_file_stem (p n : String) (h : file_name p = some n) :
    title p = (split_file_at_dot n).1 ∧
    (∀ q : String, file_name q = none → title q = "Document") ∧
    (∀ d frag : String,
      full_html (title p) d frag = tplA ++ title p ++ tplB ++ d ++ tplC ++ frag ++ tplD) := by
  refine ⟨?_, ?_, ?_⟩
  · simp [title, file_stem, h]
  · intro q hq
    simp [title, file_stem, hq]
  · intro d frag
    rfl

theorem C5_title_from_file_stem_witness :
    file_name "notes/readme.md" = some "readme.md" ∧
    title "notes/readme.md" = "readme" ∧
    title "/" = "Document" := by
  have h := C5_title_from_file_stem "notes/readme.md" "readme.md" rfl
  refine ⟨rfl, ?_, h.2.1 "/" rfl⟩
  rw [h.1]
  rfl

/-- Claim C7: the markup renderer is total over all string inputs,
degrading unrecognised constructs to literal text, and table syntax is
available through the explicitly enabled extension flag rather than by
default: the option value the program builds holds the table flag, the
empty default does not, and on a table block the two option values render
differently, the default leaving the text as a literal paragraph. -/
theorem C7_renderer_total_tables_extension :
    (∀ md : String, ∃ html : String, render options md = html) ∧
    MarkdownOption.ENABLE_TABLES ∈ options ∧
    MarkdownOption.ENABLE_TABLES ∉ MarkupOptions.empty ∧
    render MarkupOptions.empty "| a |\n| - |" = "<p>" ++ "| a |\n| - |" ++ "</p>" ∧
    render options "| a |\n| - |" = "<table>" ++ "| a |\n| - |" ++ "</table>" := by
  refine ⟨fun md => ⟨render options md, rfl⟩, ?_, ?_, ?_, ?_⟩
  · simp [options, MarkupOptions.insert, MarkupOptions.empty]
  · simp [MarkupOptions.empty]
  · rfl
  · rfl

/-- Claim C2: when the local output file already exists the writer performs
no write at all (the replayed file system is unchanged, so the existing
content is kept byte for byte), the existing path is reported with an
already-exists message, and the invocation still succeeds; when no file
exists at the output path the full rendered content is written there and
the new path is reported. -/
theorem C2_local_no_overwrite (w : World) (file : String) (raw : RawS3Config)
    (s3 : S3Config) (md : String)
    (h1 : w.config_path_found = true) (h2 : w.config_file_exists = true)
    (h3 : w.raw_config = some raw) (h4 : parseS3Config raw = Except.ok s3)
    (h5 : w.source = some md) :
    (∀ c : String, w.fs (with_extension file "html") = some c →
      runMain w file true =
        ([Effect.readSource file],
         Except.ok ("Local file \x27" ++ with_extension file "html" ++
           "\x27 already exists. Not overwriting.")) ∧
      applyEffects w.fs (runMain w file true).1 = w.fs ∧
      applyEffects w.fs (runMain w file true).1 (with_extension file "html") = some c) ∧
    (w.fs (with_extension file "html") = none →
      runMain w file true =
        ([Effect.readSource file,
          Effect.writeFile (with_extension file "html")
            (full_html (title file) w.date (render options md))],
         Except.ok ("Local HTML file created: " ++ with_extension file "html")) ∧
      applyEffects w.fs (runMain w file true).1 (with_extension file "html") =
        some (full_html (title file) w.date (render options md))) := by
  constructor
  · intro c hc
    have hr : runMain w file true =
        ([Effect.readSource file],
         Except.ok ("Local file \x27" ++ with_extension file "html" ++
           "\x27 already exists. Not overwriting.")) := by
      simp [runMain, h1, h2, h3, h4, h5, hc]
    refine ⟨hr, ?_, ?_⟩
    · rw [hr]
      rfl
    · rw [hr]
      exact hc
  · intro hc
    have hr : runMain w file true =
        ([Effect.readSource file,
          Effect.writeFile (with_extension file "html")
            (full_html (title file) w.date (render options md))],
         Except.ok ("Local HTML file created: " ++ with_extension file "html")) := by
      simp [runMain, h1, h2, h3, h4, h5, hc]
    refine ⟨hr, ?_⟩
    rw [hr]
    show (if with_extension file "html" = with_extension file "html"
          then some (full_html (title file) w.date (render options md))
          else w.fs (with_extension file "html")) = _
    rw [if_pos rfl]

theorem C2_local_no_overwrite_witness :
    wExisting.fs (with_extension "doc.md" "html") = some "old content" ∧
    runMain wExisting "doc.md" true =
      ([Effect.readSource "doc.md"],
       Except.ok ("Local file \x27" ++ with_extension "doc.md" "html" ++
         "\x27 already exists. Not overwriting.")) ∧
    applyEffects wExisting.fs (runMain wExisting "doc.md" true).1 = wExisting.fs := by
  have h := (C2_local_no_overwrite wExisting "doc.md" rawExample s3Example "hello"
      rfl rfl rfl rfl rfl).1 "old content" (by rfl)
  exact ⟨by rfl, h.1, h.2.1⟩

/-- Claim C4: every remote publish issues exactly one PUT, whose endpoint
URL is https://s3. followed by the configured region and the provider
host, with the rendered content as body, content type text/html,
path-style addressing, and the static credentials from configuration,
against the configured bucket and the computed key. -/
theorem C4_single_put_request (w : World) (file : String) (raw : RawS3Config)
    (s3 : S3Config) (md : String)
    (h1 : w.config_path_found = true) (h2 : w.config_file_exists = true)
    (h3 : w.raw_config = some raw) (h4 : parseS3Config raw = Except.ok s3)
    (h5 : w.source = some md) :
    ∃ req : PutObjectRequest,
      (runMain w file false).1 = [Effect.readSource file, Effect.putObject req] ∧
      req.endpoint_url = "https://s3." ++ s3.region ++ "." ++ providerHost ∧
      req.force_path_style = true ∧
      req.access_key_id = s3.access_key_id ∧
      req.secret_access_key = s3.secret_access_key ∧
      req.bucket = s3.bucket ∧
      req.key = object_key s3.prefix_str w.uuid ∧
      req.content_type = "text/html" ∧
      req.body = full_html (title file) w.date (render options md) := by
  refine ⟨mkPutRequest s3 w.uuid (full_html (title file) w.date (render options md)),
    ?_, ?_, rfl, rfl, rfl, rfl, rfl, rfl, rfl⟩
  · simp [runMain, h1, h2, h3, h4, h5]
  · show endpoint s3.region = _
    unfold endpoint providerHost
    apply str_ext
    simp only [str_data_append, List.append_assoc]
    rfl

theorem C4_single_put_request_witness :
    ∃ req : PutObjectRequest,
      (runMain wEmpty "doc.md" false).1 = [Effect.readSource "doc.md", Effect.putObject req] ∧
      req.endpoint_url = "https://s3." ++ "r" ++ "." ++ providerHost ∧
      req.force_path_style = true ∧
      req.access_key_id = "ak" ∧
      req.secret_access_key = "sk" ∧
      req.bucket = "b" ∧
      req.key = object_key "docs/" "u-1" ∧
      req.content_type = "text/html" ∧
      req.body = full_html (title "doc.md") "March 04, 2025" (render options "hello") :=
  C4_single_put_request wEmpty "doc.md" rawExample s3Example "hello" rfl rfl rfl rfl rfl

/-- Claim C6: with the local-output flag set the publish target is the
source path with its extension replaced by html (same directory, the file
name keeping its stem), and no remote upload is attempted in any
local-output run. -/
theorem C6_local_target_no_upload (w : World) (file : String)
    (hb1 : (splitLastSlash file).2 ≠ "")
    (hb2 : (splitLastSlash file).2 ≠ ".")
    (hb3 : (splitLastSlash file).2 ≠ "..") :
    with_extension file "html" =
      (splitLastSlash file).1 ++ (split_file_at_dot (splitLastSlash file).2).1 ++
        "." ++ "html" ∧
    split_file_at_dot ((split_file_at_dot (splitLastSlash file).2).1 ++ ".html") =
      ((split_file_at_dot (splitLastSlash file).2).1, some "html") ∧
    (∀ req : PutObjectRequest, Effect.putObject req ∉ (runMain w file true).1) := by
  refine ⟨?_, ?_, ?_⟩
  · unfold with_extension
    rw [if_neg (by simp [hb1, hb2, hb3]), if_neg (by decide)]
  · exact split_append_html _ (split_fst_ne_empty _ hb1)
  · intro req hmem
    unfold runMain at hmem
    repeat' split at hmem
    all_goals
      try (cases hw : w.fs (with_extension file "html") <;> simp [hw] at hmem)
    all_goals simp_all

theorem C6_local_target_no_upload_witness :
    (splitLastSlash "notes/report.md").2 ≠ "" ∧
    with_extension "notes/report.md" "html" =
      (splitLastSlash "notes/report.md").1 ++
        (split_file_at_dot (splitLastSlash "notes/report.md").2).1 ++ "." ++ "html" ∧
    (∀ req : PutObjectRequest,
      Effect.putObject req ∉ (runMain wEmpty "notes/report.md" true).1) := by
  have h := C6_local_target_no_upload wEmpty "notes/report.md"
    (by decide) (by decide) (by decide)
  exact ⟨by decide, h.1, h.2.2⟩

/-- Claim C8: an existing configuration file whose s3 table is missing the
bucket field makes the invocation fail with a configuration-invalid error,
with an empty effect trace: no network request and no file-system read or
write has happened at the point of failure. -/
theorem C8_missing_bucket_config_invalid (w : World) (file : String) (fo : Bool)
    (raw : RawS3Config)
    (h1 : w.config_path_found = true) (h2 : w.config_file_exists = true)
    (h3 : w.raw_config = some raw) (hb : raw.bucket = none) :
    ∃ m : String, runMain w file fo = ([], Except.error (MainError.configInvalid m)) := by
  obtain ⟨m, hm⟩ := parse_error_of_missing raw (Or.inr (Or.inl hb))
  exact ⟨m, by simp [runMain, h1, h2, h3, hm]⟩

theorem C8_missing_bucket_config_invalid_witness :
    ∃ m : String, runMain wNoBucket "doc.md" false =
      ([], Except.error (MainError.configInvalid m)) :=
  C8_missing_bucket_config_invalid wNoBucket "doc.md" false rawNoBucket rfl rfl rfl rfl

/-- Claim C9: every invocation, the local-output ones included, requires
the configuration file to exist and to deserialize into all six s3 fields;
when it is missing or invalid the run fails with an empty effect trace, so
before the source file is even read, and conversely a table with all six
fields present deserializes successfully. -/
theorem C9_config_required_even_for_local (w : World) (file : String) (fo : Bool)
    (h : w.config_path_found = false ∨ w.config_file_exists = false ∨ w.raw_config = none ∨
         ∃ raw : RawS3Config, w.raw_config = some raw ∧
           (raw.domain = none ∨ raw.bucket = none ∨ raw.region = none ∨
            raw.prefix_str = none ∨ raw.access_key_id = none ∨
            raw.secret_access_key = none)) :
    (∃ e : MainError, runMain w file fo = ([], Except.error e)) ∧
    (∀ d b rg p a s : String,
      parseS3Config ⟨some d, some b, some rg, some p, some a, some s⟩ =
        Except.ok ⟨d, b, rg, p, a, s⟩) := by
  refine ⟨?_, fun d b rg p a s => rfl⟩
  cases hcp : w.config_path_found with
  | false => exact ⟨MainError.configPathUndetermined, by simp [runMain, hcp]⟩
  | true =>
    cases hcf : w.config_file_exists with
    | false => exact ⟨MainError.configNotFound, by simp [runMain, hcp, hcf]⟩
    | true =>
      rcases hrc : w.raw_config with _ | raw
      · exact ⟨MainError.configInvalid "configuration file malformed",
          by simp [runMain, hcp, hcf, hrc]⟩
      · rcases h with h | h | h | ⟨raw2, hr2, hf⟩
        · rw [hcp] at h; simp at h
        · rw [hcf] at h; simp at h
        · rw [hrc] at h; simp at h
        · rw [hrc] at hr2
          injection hr2 with hr2
          subst hr2
          obtain ⟨m, hm⟩ := parse_error_of_missing raw hf
          exact ⟨MainError.configInvalid m, by simp [runMain, hcp, hcf, hrc, hm]⟩

theorem C9_config_required_even_for_local_witness :
    (∃ e : MainError, runMain wNoBucket "doc.md" true = ([], Except.error e)) ∧
    (∀ d b rg p a s : String,
      parseS3Config ⟨some d, some b, some rg, some p, some a, some s⟩ =
        Except.ok ⟨d, b, rg, p, a, s⟩) :=
  C9_config_required_even_for_local wNoBucket "doc.md" true
    (Or.inr (Or.inr (Or.inr ⟨rawNoBucket, rfl, Or.inr (Or.inl rfl)⟩)))

/-- Claim C10: for a source path whose final component has no extension,
the local output path is the whole path with .html appended, and the full
former file name becomes the stem of the new name. -/
theorem C10_extensionless_appends_html (file : String)
    (hb1 : (splitLastSlash file).2 ≠ "")
    (hb2 : (splitLastSlash file).2 ≠ ".")
    (hb3 : (splitLastSlash file).2 ≠ "..")
    (hext : (split_file_at_dot (splitLastSlash file).2).2 = none) :
    with_extension file "html" = file ++ ".html" ∧
    split_file_at_dot ((splitLastSlash file).2 ++ ".html") =
      ((splitLastSlash file).2, some "html") := by
  have hstem : (split_file_at_dot (splitLastSlash file).2).1 = (splitLastSlash file).2 :=
    split_fst_of_ext_none _ hext
  constructor
  · unfold with_extension
    rw [if_neg (by simp [hb1, hb2, hb3]), if_neg (by decide), hstem,
      str_append_assoc ((splitLastSlash file).1 ++ (splitLastSlash file).2) "." "html"]
    have hdot : ("." : String) ++ "html" = ".html" := rfl
    rw [hdot, splitLastSlash_concat]
  · exact split_append_html _ hb1

theorem C10_extensionless_appends_html_witness :
    (split_file_at_dot (splitLastSlash "README").2).2 = none ∧
    with_extension "README" "html" = "README" ++ ".html" ∧
    split_file_at_dot ((splitLastSlash "README").2 ++ ".html") =
      ((splitLastSlash "README").2, some "html") := by
  have h := C10_extensionless_appends_html "README"
    (by decide) (by decide) (by decide) (by rfl)
  exact ⟨by rfl, h.1, h.2⟩

end Klistra
